import Mathlib

/-!
Verification of the per-stream playback core of the `streams` repository.

The repository contains two revisions of the same Flask application:
`src/app.py` (the later revision) and `src/main.py` (the earlier one).
Both serve MJPEG feeds per named stream by playing the `.mp4` files of a
`videos/` (pending) directory in sorted order, moving each finished file
into `history/`, and falling back to a looping `offline.mp4` clip.

Shallow embedding conventions:
- Python strings are modelled as Lean `String`s; Python's code-point
  comparison `a <= b` is `a.data ≤ b.data` (lexicographic on `List Char`,
  the same order code points give in Python), and `s.endswith(suf)` is
  suffix matching on `.data`.
- A directory listing is a `List String` of entries (directories are
  assumed to exist; `app.py` additionally maps a missing directory to the
  empty queue by catching `FileNotFoundError`, `main.py` does not catch it).
- `cv2` is an external collaborator: a `Media` record says, per path,
  whether `VideoCapture` opens, how many frames `read` yields before
  `ret = False`, and the reported `CAP_PROP_FPS` (a float, modelled as `ℚ`).
- A playback run is observed through a list of events: emitted frames
  (tagged with the path they were decoded from), `time.sleep` calls, and,
  for the offline loop of `app.py`, the per-frame pending-queue checks.
- `float` arithmetic is modelled exactly over `ℚ`; the only property at
  stake (division by a zero fps) is exact.
- Fallible Python code (an uncaught exception) is `Except String`.
-/

/-- Python string `<=` (code-point lexicographic order), as used by
`sorted(...)` in `get_video_queue`. -/
def pyLe (a b : String) : Prop := a.data ≤ b.data

instance : DecidableRel pyLe := fun a b => inferInstanceAs (Decidable (a.data ≤ b.data))

instance : IsTotal String pyLe := ⟨fun a b => le_total a.data b.data⟩

instance : IsTrans String pyLe := ⟨fun _ _ _ h h' => le_trans h h'⟩

instance : IsAntisymm String pyLe := by
  refine ⟨fun a b h h' => ?_⟩
  cases a; cases b
  exact congrArg String.mk (le_antisymm h h')

/-- Python `s.endswith(suffix)` (`f.endswith('.mp4')` in `get_video_queue`,
`file.filename.endswith('.mp4')` in `upload`). -/
def pyEndsWith (s suffix : String) : Bool := suffix.data.isSuffixOf s.data

/-- Contents of one stream's directories: the entries of `videos/`
(pending), the entries of `history/`, and whether the `offline.mp4` file
exists (`os.path.exists`, checked only by `app.py`). -/
structure StreamDirs where
  videos : List String
  history : List String
  offlineExists : Bool
deriving DecidableEq, Repr

/-- The cv2 collaborator: per path, whether `VideoCapture(path)` opens,
how many `cap.read()` calls succeed before the sequence is exhausted, and
the reported `CAP_PROP_FPS`. -/
structure Media where
  opens : String → Bool
  frames : String → Nat
  fps : String → ℚ

/-- Path of a pending video inside its stream directory
(`os.path.join(..., 'videos', filename)`). -/
def videoPath (v : String) : String := "videos/" ++ v

/-- Path of the offline fallback clip. -/
def offlinePath : String := "offline.mp4"

/-- Observable events of a playback run. `frame p` is a yielded MJPEG part
decoded from path `p`; `sleep q` is a `time.sleep(q)` call; `checkedQueue b`
records a `get_video_queue` re-check inside `app.py`'s offline loop that
found the pending queue non-empty (`b = true`) or empty (`b = false`). -/
inductive Ev where
  | frame (path : String)
  | sleep (secs : ℚ)
  | checkedQueue (nonempty : Bool)
deriving DecidableEq, Repr

/-- `get_video_queue` (app.py lines 26-37, main.py lines 22-35; the two
revisions compute the same list): sort the `.mp4` entries of `videos/`
ascending, then drop those whose name appears in `history/`.
Python's `sorted` is modelled by the stable `List.insertionSort` under
`pyLe`. -/
def get_video_queue (videos history : List String) : List String :=
  (List.insertionSort pyLe (videos.filter (fun f => pyEndsWith f ".mp4"))).filter
    (fun v => !(history.contains v))

/-- Directory entry creation with overwrite semantics: `os.rename` onto an
existing name, or `file.save` onto an existing name, replaces it — a
directory never holds two entries with the same name. -/
def dirInsert (dir : List String) (v : String) : List String :=
  if dir.contains v then dir else dir ++ [v]

/-- The archive step of app.py (lines 92-97): `os.rename(video_path,
history_path)` wrapped in `try/except` — a failed rename (source no longer
in `videos/`) is caught and logged. Returns the new directory state and
whether the rename succeeded (`false` = exception caught and logged). -/
def archiveApp (d : StreamDirs) (v : String) : StreamDirs × Bool :=
  if d.videos.contains v then
    ({ d with videos := d.videos.erase v, history := dirInsert d.history v }, true)
  else (d, false)

/-- The archive step of main.py (line 76): a bare `os.rename` with no
handler — if the source is no longer in `videos/` the `FileNotFoundError`
propagates out of the generator. -/
def archiveMain (d : StreamDirs) (v : String) : Except String StreamDirs :=
  if d.videos.contains v then
    .ok { d with videos := d.videos.erase v, history := dirInsert d.history v }
  else .error "FileNotFoundError"

/-- Frame interval of app.py (lines 58-59 in `frame_stream` and 111-112 in
the offline branch): `1.0 / fps if fps > 0 else 1.0 / 30`. -/
def frame_interval (fps : ℚ) : ℚ := if fps > 0 then 1 / fps else 1 / 30

/-- The frame/sleep event sequence of one pass of app.py's read loop:
each successfully read frame is yielded and followed by
`time.sleep(frame_interval)` (lines 61-75; `cv2.imencode` failures, which
skip a frame, are modelled as never occurring). -/
def frameSeq (path : String) (interval : ℚ) : Nat → List Ev
  | 0 => []
  | n + 1 => Ev.frame path :: Ev.sleep interval :: frameSeq path interval n

/-- `frame_stream` of app.py (lines 52-77): if `VideoCapture` fails to
open the file it returns without yielding anything; otherwise it yields
every decoded frame, pacing with `frame_interval`. The `stop_event`
parameter is dead code (it is created per generator and never set). -/
def frame_stream (m : Media) (path : String) : List Ev :=
  if m.opens path then frameSeq path (frame_interval (m.fps path)) (m.frames path) else []

/-- One pass of the body of app.py's `while True` loop (lines 81-134).
If the queue is non-empty: pop its head, play it via `frame_stream`, and
archive it in the `finally` block. If the queue is empty and the offline
clip is missing (`os.path.exists` fails, line 100) or unopenable (line
106), sleep 2 seconds and retry. If the offline clip is playable the code
enters the inline offline loop (lines 114-132), which terminates only by
preemption and is modelled separately by `appOfflineLoop`. -/
def appIteration (m : Media) (d : StreamDirs) : StreamDirs × List Ev :=
  match get_video_queue d.videos d.history with
  | v :: _ => ((archiveApp d v).1, frame_stream m (videoPath v))
  | [] =>
    if d.offlineExists && m.opens offlinePath then (d, [])
    else (d, [Ev.sleep 2])

/-- Iterate `appIteration` a given number of times, concatenating the
emitted events. -/
def appRun (m : Media) : Nat → StreamDirs → StreamDirs × List Ev
  | 0, d => (d, [])
  | n + 1, d =>
    let (d₁, evs) := appIteration m d
    let (d₂, evs') := appRun m n d₁
    (d₂, evs ++ evs')

/-- The inline offline loop of app.py (lines 114-132). At each pass of the
`while` loop it first re-runs `get_video_queue`; a non-empty result breaks
out (back to the outer loop) before any further frame is read. Otherwise
it reads a frame: on `ret = False` it rewinds to frame zero and continues
(no frame emitted), on success it yields the frame and sleeps.
The changing outside world is abstracted by two streams indexed by the
loop-pass counter `t`: `hasNew t` is whether `get_video_queue` is
non-empty at pass `t` (files appear via concurrent uploads), `ret t`
whether `cap.read()` succeeds at pass `t`. `fuel` bounds the number of
passes modelled (the real loop runs until preempted). -/
def appOfflineLoop (interval : ℚ) (hasNew ret : Nat → Bool) : Nat → Nat → List Ev
  | 0, _ => []
  | fuel + 1, t =>
    if hasNew t then [Ev.checkedQueue true]
    else
      Ev.checkedQueue false ::
        (if ret t then
          Ev.frame offlinePath :: Ev.sleep interval :: appOfflineLoop interval hasNew ret fuel (t + 1)
        else appOfflineLoop interval hasNew ret fuel (t + 1))

/-- One offline pass of main.py (lines 86-107): read and yield frames
until `ret = False`, then break. The pending queue is never consulted
inside this loop (the conditional pacing sleeps of lines 97-98 are
modelled separately by `mainFrameDelay`). -/
def mainOfflinePass (ret : Nat → Bool) : Nat → Nat → List Ev
  | 0, _ => []
  | fuel + 1, t =>
    if ret t then Ev.frame offlinePath :: mainOfflinePass ret fuel (t + 1) else []

/-- Playing one video in main.py (the read loops at lines 51-71 and
86-105): if `VideoCapture` does not open, the `while cap.isOpened()` loop
is skipped and nothing is yielded; otherwise each frame read is paced by
`if delta_time < (1 / fps)` — evaluating `1 / fps` raises
`ZeroDivisionError` when the reported fps is `0`, before the first frame
is yielded. With a non-zero fps all frames are yielded (the wall-clock
conditional sleeps are modelled separately by `mainFrameDelay`). -/
def mainPlayVideo (m : Media) (path : String) : Except String (List Ev) :=
  if m.opens path then
    if m.frames path = 0 then .ok []
    else if m.fps path = 0 then .error "ZeroDivisionError"
    else .ok (List.replicate (m.frames path) (Ev.frame path))
  else .ok []

/-- The pacing computation of main.py (lines 62-63 and 97-98):
`if delta_time < (1 / fps): time.sleep((1 / fps) - delta_time)`.
The division is unguarded, so fps `= 0` (cv2's value for an unknown rate)
raises `ZeroDivisionError`; otherwise the sleep duration (if any) is
returned. -/
def mainFrameDelay (fps delta : ℚ) : Except String (Option ℚ) :=
  if fps = 0 then .error "ZeroDivisionError"
  else .ok (if delta < 1 / fps then some (1 / fps - delta) else none)

/-- One pass of the body of main.py's `while True` loop (lines 39-115):
if the queue is non-empty, play its head and archive it with an unguarded
rename; then — unconditionally, whether or not videos remain pending —
fall through to the offline block (lines 78-107) and play one full pass of
`offline.mp4`. The trailing re-check (lines 111-115) does not change
state: the loop continues either way. Any uncaught exception terminates
the generator. -/
def mainIteration (m : Media) (d : StreamDirs) : Except String (StreamDirs × List Ev) :=
  match get_video_queue d.videos d.history with
  | [] =>
    match mainPlayVideo m offlinePath with
    | .error e => .error e
    | .ok evs => .ok (d, evs)
  | v :: _ =>
    match mainPlayVideo m (videoPath v) with
    | .error e => .error e
    | .ok evs =>
      match archiveMain d v with
      | .error e => .error e
      | .ok d' =>
        match mainPlayVideo m offlinePath with
        | .error e => .error e
        | .ok evs₂ => .ok (d', evs ++ evs₂)

/-- The claim step of one viewer session (app.py lines 82-85, main.py
lines 40-44): the session recomputes `get_video_queue` from a directory
snapshot and pops the head of its own private Python list. The shared
directories are not modified by claiming — only the later archive rename
mutates them. -/
def sessionClaim (d : StreamDirs) : Option String × StreamDirs :=
  ((get_video_queue d.videos d.history).head?, d)

/-- Upload responses of app.py's `upload` view (lines 159-178):
403 (`UPLOAD_PASSWORD` unset, or wrong password), 400 (not a `.mp4`),
or the redirect to the stream's viewer page. -/
inductive UploadResponse where
  | forbidden403
  | badRequest400
  | redirect302
deriving DecidableEq, Repr

/-- The POST branch of app.py's `upload` view (lines 159-178). `configured`
is the `UPLOAD_PASSWORD` environment value (`none` = unset), `formPw` the
submitted password field, `file` the submitted file's name (`none` = no
file part). `sanitize` stands for werkzeug's external `secure_filename`.
The extension is checked on the submitted name; the file is saved (with
overwrite) under the sanitized name. The `os.makedirs(videos_dir,
exist_ok=True)` call creates no directory entries, so the file lists are
untouched on every rejection path. -/
def upload (sanitize : String → String) (configured formPw file : Option String)
    (d : StreamDirs) : UploadResponse × StreamDirs :=
  match configured with
  | none => (.forbidden403, d)
  | some pw =>
    if formPw = some pw then
      match file with
      | some fname =>
        if pyEndsWith fname ".mp4" then
          (.redirect302, { d with videos := dirInsert d.videos (sanitize fname) })
        else (.badRequest400, d)
      | none => (.badRequest400, d)
    else (.forbidden403, d)

/-- Number of emitted frames in an event list. -/
def countFrames (evs : List Ev) : Nat :=
  evs.countP (fun e => match e with | .frame _ => true | _ => false)

/-- Number of pending-queue re-checks (of either outcome) in an event
list. -/
def countChecks (evs : List Ev) : Nat :=
  evs.countP (fun e => match e with | .checkedQueue _ => true | _ => false)

/-- A media environment where every path opens, every video has one frame
and reports 30 fps. -/
def mOneFrame : Media := { opens := fun _ => true, frames := fun _ => 1, fps := fun _ => 30 }

/-- The pending directory of the spec's ordering example, with empty
history and no offline clip. -/
def dBAC : StreamDirs := { videos := ["b.mp4", "a.mp4", "c.mp4"], history := [], offlineExists := false }

/-- A media environment where every path opens with two frames at
30 fps. -/
def mTwo : Media := { opens := fun _ => true, frames := fun _ => 2, fps := fun _ => 30 }

/-- A media environment where no path opens (missing or corrupt files
everywhere). -/
def mUnavailable : Media := { opens := fun _ => false, frames := fun _ => 0, fps := fun _ => 0 }

/-- Two pending files and an existing offline clip. -/
def dAB : StreamDirs := { videos := ["a.mp4", "b.mp4"], history := [], offlineExists := true }

/-- Exactly one pending file. -/
def dOne : StreamDirs := { videos := ["a.mp4"], history := [], offlineExists := true }

/-- No pending files and no offline clip. -/
def dNoSource : StreamDirs := { videos := [], history := [], offlineExists := false }

/-- A single pending file named `bad.mp4`. -/
def dBad : StreamDirs := { videos := ["bad.mp4"], history := [], offlineExists := true }

/-- Number of successful `cap.read()` calls among loop passes
`t, t+1, ..., t+k-1` of the offline loop. -/
def readsBefore (ret : Nat → Bool) : Nat → Nat → Nat
  | 0, _ => 0
  | k + 1, t => (if ret t then 1 else 0) + readsBefore ret k (t + 1)

section Helpers

lemma mem_get_video_queue {videos history : List String} {f : String} :
    f ∈ get_video_queue videos history ↔
      f ∈ videos ∧ pyEndsWith f ".mp4" = true ∧ f ∉ history := by
  unfold get_video_queue
  rw [List.mem_filter, (List.perm_insertionSort pyLe _).mem_iff, List.mem_filter]
  simp [and_assoc]

lemma pairwise_get_video_queue (videos history : List String) :
    List.Pairwise pyLe (get_video_queue videos history) :=
  List.Pairwise.filter _ (List.sorted_insertionSort pyLe _)

lemma mem_dirInsert_self (dir : List String) (v : String) : v ∈ dirInsert dir v := by
  by_cases h : v ∈ dir <;> simp [dirInsert, h]

lemma mem_dirInsert_of_ne {dir : List String} {g v : String} (hne : g ≠ v) :
    g ∈ dirInsert dir v ↔ g ∈ dir := by
  by_cases h : v ∈ dir <;> simp [dirInsert, h, hne]

lemma count_dirInsert_of_not_mem {dir : List String} {v : String} (h : v ∉ dir) :
    (dirInsert dir v).count v = 1 := by
  simp only [dirInsert]
  rw [if_neg (by simpa using h), List.count_append]
  simp [List.count_eq_zero.mpr h]

lemma archiveApp_of_mem {d : StreamDirs} {v : String} (hv : v ∈ d.videos) :
    archiveApp d v =
      ({ d with videos := d.videos.erase v, history := dirInsert d.history v }, true) := by
  simp only [archiveApp]
  rw [if_pos (by simpa using hv)]

lemma archiveApp_of_not_mem {d : StreamDirs} {v : String} (hv : v ∉ d.videos) :
    archiveApp d v = (d, false) := by
  simp only [archiveApp]
  rw [if_neg (by simpa using hv)]

lemma getLast?_cons_of_getLast? {α : Type} {l : List α} {a b : α}
    (h : l.getLast? = some b) : (a :: l).getLast? = some b := by
  cases l with
  | nil => simp at h
  | cons c t => rw [List.getLast?_cons_cons]; exact h

lemma readsBefore_eq_countP (ret : Nat → Bool) :
    ∀ k t, readsBefore ret k t = (List.range k).countP (fun j => ret (t + j)) := by
  intro k
  induction k with
  | zero => intro t; simp [readsBefore]
  | succ k ih =>
    intro t
    rw [readsBefore, ih (t + 1), List.range_succ_eq_map, List.countP_cons, List.countP_map]
    have : ((fun j => ret (t + j)) ∘ Nat.succ) = fun j => ret (t + 1 + j) := by
      funext j
      simp only [Function.comp_apply]
      rw [show t + (j + 1) = t + 1 + j by omega]
    rw [this]
    simp [Nat.add_comm]

lemma second_archive_app {d : StreamDirs} {v : String} (hv : v ∈ d.videos)
    (hh : v ∉ d.history) (hnd : d.videos.Nodup) :
    (archiveApp d v).2 = true ∧
      archiveApp (archiveApp d v).1 v = ((archiveApp d v).1, false) ∧
      ((archiveApp d v).1).history.count v = 1 := by
  rw [archiveApp_of_mem hv]
  refine ⟨rfl, ?_, count_dirInsert_of_not_mem hh⟩
  exact archiveApp_of_not_mem (hnd.not_mem_erase)

end Helpers

/-- C1: for every stream, `get_video_queue` is exactly the list of `.mp4`
entries of the videos directory that are not in the history set, in
ascending lexicographic filename order, and the playback loop plays queued
files in that order: with pending files `["b.mp4","a.mp4","c.mp4"]` the
playback trace is `a.mp4`, `b.mp4`, `c.mp4`. -/
theorem C1_queue_sorted_and_order :
    (∀ videos history : List String,
        List.Pairwise pyLe (get_video_queue videos history) ∧
          ∀ f, f ∈ get_video_queue videos history ↔
            f ∈ videos ∧ pyEndsWith f ".mp4" = true ∧ f ∉ history) ∧
      appRun mOneFrame 3 dBAC =
        ({ videos := [], history := ["a.mp4", "b.mp4", "c.mp4"], offlineExists := false },
          [Ev.frame "videos/a.mp4", Ev.sleep (frame_interval 30),
            Ev.frame "videos/b.mp4", Ev.sleep (frame_interval 30),
            Ev.frame "videos/c.mp4", Ev.sleep (frame_interval 30)]) := by
  refine ⟨fun videos history => ⟨pairwise_get_video_queue videos history,
    fun f => mem_get_video_queue⟩, ?_⟩
  rfl

/-- C10: only names ending in `.mp4` are ever selected by
`get_video_queue`; an entry of the videos directory without the `.mp4`
suffix is never returned by the queue, and a pass of app.py's playback
loop leaves it in the videos directory and never moves it into history. -/
theorem C10_non_mp4_untouched (m : Media) (d : StreamDirs) (g : String)
    (hg : pyEndsWith g ".mp4" = false) :
    (∀ f ∈ get_video_queue d.videos d.history, pyEndsWith f ".mp4" = true) ∧
      (g ∈ d.videos → g ∈ (appIteration m d).1.videos) ∧
      (g ∉ d.history → g ∉ (appIteration m d).1.history) := by
  refine ⟨fun f hf => (mem_get_video_queue.mp hf).2.1, ?_, ?_⟩ <;>
  · intro hmem
    cases hq : get_video_queue d.videos d.history with
    | nil =>
      simp only [appIteration, hq]
      split <;> simpa using hmem
    | cons v tail =>
      have hv : v ∈ d.videos ∧ pyEndsWith v ".mp4" = true ∧ v ∉ d.history := by
        have : v ∈ get_video_queue d.videos d.history := by
          rw [hq]; exact List.mem_cons_self v tail
        simpa using mem_get_video_queue.mp this
      have hne : g ≠ v := by
        intro h
        rw [h, hv.2.1] at hg
        exact Bool.true_eq_false.mp hg
      simp only [appIteration, hq, archiveApp_of_mem hv.1]
      first
      | exact (List.mem_erase_of_ne hne).mpr hmem
      | exact fun hcon => hmem ((mem_dirInsert_of_ne hne).mp hcon)

/-- C10 witness: a `notes.txt` entry is not in the queue and survives one
playback pass with `b.mp4` pending. -/
theorem C10_non_mp4_untouched_witness :
    "notes.txt" ∉ get_video_queue ["b.mp4", "notes.txt"] [] ∧
      "notes.txt" ∈
        (appIteration mOneFrame
          { videos := ["b.mp4", "notes.txt"], history := [], offlineExists := false }).1.videos := by
  have h := C10_non_mp4_untouched mOneFrame
    { videos := ["b.mp4", "notes.txt"], history := [], offlineExists := false }
    "notes.txt" (by decide)
  refine ⟨fun hmem => ?_, h.2.1 (by decide)⟩
  have := h.1 "notes.txt" hmem
  exact absurd this (by decide)

/-- C9: for every upload POST, an unset `UPLOAD_PASSWORD` or a wrong
submitted password yields 403 with the directories unchanged; a correct
password with a non-`.mp4` filename yields 400 with the directories
unchanged; a correct password with a `.mp4` filename saves the file into
the videos directory — visible to `get_video_queue` when the saved
(sanitized) name keeps its `.mp4` suffix and is not in history — and
responds with the redirect to the viewer page. -/
theorem C9_upload_gate (sanitize : String → String) (formPw file : Option String)
    (d : StreamDirs) :
    upload sanitize none formPw file d = (.forbidden403, d) ∧
      (∀ pw, formPw ≠ some pw → upload sanitize (some pw) formPw file d = (.forbidden403, d)) ∧
      (∀ pw s, file = some s → pyEndsWith s ".mp4" = false →
        upload sanitize (some pw) (some pw) file d = (.badRequest400, d)) ∧
      (∀ pw s, file = some s → pyEndsWith s ".mp4" = true →
        upload sanitize (some pw) (some pw) file d =
          (.redirect302, { d with videos := dirInsert d.videos (sanitize s) }) ∧
        (pyEndsWith (sanitize s) ".mp4" = true → sanitize s ∉ d.history →
          sanitize s ∈ get_video_queue (dirInsert d.videos (sanitize s)) d.history)) := by
  refine ⟨rfl, fun pw hne => ?_, fun pw s hfile hext => ?_, fun pw s hfile hext => ⟨?_, ?_⟩⟩
  · simp [upload, hne]
  · subst hfile; simp [upload, hext]
  · subst hfile; simp [upload, hext]
  · intro hsan hhist
    exact mem_get_video_queue.mpr ⟨mem_dirInsert_self d.videos (sanitize s), hsan, hhist⟩

/-- C9 witness: with configured password `"s3cr3t"`, a wrong password is
rejected with the state unchanged, and a correct upload of `clip.mp4`
becomes visible to the queue. -/
theorem C9_upload_gate_witness :
    upload id (some "s3cr3t") (some "wrong") (some "clip.mp4")
        { videos := [], history := [], offlineExists := true } =
      (.forbidden403, { videos := [], history := [], offlineExists := true }) ∧
      "clip.mp4" ∈ get_video_queue (dirInsert [] "clip.mp4") [] := by
  constructor
  · exact (C9_upload_gate id (some "wrong") (some "clip.mp4")
      { videos := [], history := [], offlineExists := true }).2.1 "s3cr3t" (by decide)
  · exact ((C9_upload_gate id (some "s3cr3t") (some "clip.mp4")
      { videos := [], history := [], offlineExists := true }).2.2.2 "s3cr3t" "clip.mp4" rfl
      (by decide)).2 (by decide) (by decide)

/-- C2 (code bug in main.py): with two pending files `a.mp4`, `b.mp4`
(both openable, 2 frames each), one pass of main.py's playback loop plays
`a.mp4`, archives it, and then — although `get_video_queue` is non-empty
(`b.mp4` is still pending) — unconditionally falls through to the offline
block and emits a full pass of `offline.mp4` frames before the next pass
can reach `b.mp4`. This contradicts main.py's own comment ("If no videos
left in the queue, stream the offline video") and the claim that no
offline-loop frame is emitted between two queued files' frames. app.py
re-evaluates the queue first (its `else` branch is only reached when the
queue is empty). -/
theorem C2_main_offline_interleaves :
    mainIteration mTwo dAB =
      .ok ({ videos := ["b.mp4"], history := ["a.mp4"], offlineExists := true },
        [Ev.frame "videos/a.mp4", Ev.frame "videos/a.mp4",
          Ev.frame "offline.mp4", Ev.frame "offline.mp4"]) ∧
      get_video_queue ["b.mp4"] ["a.mp4"] = ["b.mp4"] := by
  constructor
  · rfl
  · decide

/-- C4 counterexample: with exactly one pending file, two sessions that
both reach the claim step before either archives receive the same file
`a.mp4` — claiming does not mutate the shared directories, so the claim's
at-most-once guarantee ("never both receive, decode, and archive; exactly
one plays it and the other falls back to the offline loop") is false: both
decode and play it, and the loser's later rename fails. -/
theorem C4_both_sessions_claim :
    (sessionClaim dOne).1 = some "a.mp4" ∧
      (sessionClaim (sessionClaim dOne).2).1 = some "a.mp4" ∧
      (archiveApp (archiveApp dOne "a.mp4").1 "a.mp4").2 = false := by
  decide

/-- C4 as amended: claiming reads a directory snapshot and pops a private
list, leaving the shared state unchanged, so two racing sessions on one
pending file both receive it (and both play it, since playback precedes
archiving); the first archive rename succeeds, the second fails and is
caught, and history ends with exactly one entry for the file. -/
theorem C4_claim_race (d : StreamDirs) (v : String) (tail : List String)
    (hq : get_video_queue d.videos d.history = v :: tail) (hnd : d.videos.Nodup) :
    (sessionClaim d).1 = some v ∧
      (sessionClaim d).2 = d ∧
      (sessionClaim (sessionClaim d).2).1 = some v ∧
      (archiveApp d v).2 = true ∧
      archiveApp (archiveApp d v).1 v = ((archiveApp d v).1, false) ∧
      ((archiveApp d v).1).history.count v = 1 := by
  have hv := mem_get_video_queue.mp (hq ▸ List.mem_cons_self v tail)
  have h2 := second_archive_app hv.1 hv.2.2 hnd
  exact ⟨by simp [sessionClaim, hq], rfl, by simp [sessionClaim, hq], h2.1, h2.2.1, h2.2.2⟩

/-- C4 witness: the race at the concrete one-file stream `dOne`. -/
theorem C4_claim_race_witness :
    (sessionClaim (sessionClaim dOne).2).1 = some "a.mp4" ∧
      ((archiveApp dOne "a.mp4").1).history.count "a.mp4" = 1 :=
  ⟨(C4_claim_race dOne "a.mp4" [] (by decide) (by decide)).2.2.1,
    (C4_claim_race dOne "a.mp4" [] (by decide) (by decide)).2.2.2.2.2⟩

/-- C5 counterexample: in main.py the archive step is a bare `os.rename`;
after `v.mp4` has been moved to history, invoking it again raises an
uncaught `FileNotFoundError` that terminates the stream generator — not a
no-op that reports `AlreadyArchived`. -/
theorem C5_main_second_archive_raises :
    archiveMain { videos := ["v.mp4"], history := [], offlineExists := true } "v.mp4" =
        .ok { videos := [], history := ["v.mp4"], offlineExists := true } ∧
      archiveMain { videos := [], history := ["v.mp4"], offlineExists := true } "v.mp4" =
        .error "FileNotFoundError" :=
  ⟨rfl, rfl⟩

/-- C5 as amended: in app.py a second archive attempt for an already
archived file fails (the source is gone from `videos/`), the exception is
caught and logged as a generic error (not a distinct `AlreadyArchived`
report), the call is a no-op, and the history directory keeps exactly one
entry for the file; in main.py the same second rename raises an uncaught
`FileNotFoundError`. -/
theorem C5_second_archive (d : StreamDirs) (v : String) (hv : v ∈ d.videos)
    (hh : v ∉ d.history) (hnd : d.videos.Nodup) :
    (archiveApp d v).2 = true ∧
      archiveApp (archiveApp d v).1 v = ((archiveApp d v).1, false) ∧
      ((archiveApp d v).1).history.count v = 1 ∧
      archiveMain (archiveApp d v).1 v = .error "FileNotFoundError" := by
  have h2 := second_archive_app hv hh hnd
  refine ⟨h2.1, h2.2.1, h2.2.2, ?_⟩
  rw [archiveApp_of_mem hv]
  simp only [archiveMain]
  rw [if_neg (by simpa using hnd.not_mem_erase)]

/-- C5 witness: archiving `w.mp4` twice at a concrete one-file stream. -/
theorem C5_second_archive_witness :
    archiveApp
        (archiveApp { videos := ["w.mp4"], history := [], offlineExists := false } "w.mp4").1
        "w.mp4" =
      ((archiveApp { videos := ["w.mp4"], history := [], offlineExists := false } "w.mp4").1,
        false) :=
  (C5_second_archive { videos := ["w.mp4"], history := [], offlineExists := false } "w.mp4"
    (by decide) (by decide) (by decide)).2.1

/-- C6 counterexample: in main.py, with an empty queue and an offline clip
that does not open, one pass of the loop emits no frame and performs no
sleep at all — the generator retries immediately, busy-looping instead of
waiting a fixed backoff interval. -/
theorem C6_main_busy_loop :
    mainIteration mUnavailable dNoSource = .ok (dNoSource, []) :=
  rfl

/-- C6 as amended: in app.py, whenever the pending queue is empty and the
offline clip is missing or unopenable, the loop pass sleeps exactly the
fixed 2-second backoff, changes no state, and continues (lines 98-109);
main.py retries immediately with no wait. -/
theorem C6_app_backoff (m : Media) (d : StreamDirs)
    (hq : get_video_queue d.videos d.history = [])
    (hoff : d.offlineExists = false ∨ m.opens offlinePath = false) :
    appIteration m d = (d, [Ev.sleep 2]) := by
  simp only [appIteration, hq]
  rcases hoff with h | h <;> simp [h]

/-- C6 witness: the backoff pass at a concrete sourceless stream. -/
theorem C6_app_backoff_witness :
    appIteration mUnavailable dNoSource = (dNoSource, [Ev.sleep 2]) :=
  C6_app_backoff mUnavailable dNoSource (by decide) (Or.inl (by decide))

/-- C7 counterexample: main.py's pacing computes `1 / fps` without a
guard; with a reported fps of 0 (cv2's value for an unknown rate) it
raises `ZeroDivisionError` instead of defaulting to 30 fps. -/
theorem C7_main_division_by_zero :
    mainFrameDelay 0 0 = .error "ZeroDivisionError" := by
  unfold mainFrameDelay
  rw [if_pos rfl]

/-- C7 as amended: in app.py the frame interval is division-guarded — the
reciprocal of fps when fps is positive, the 30 fps default otherwise, and
always positive; in main.py the delay computation `1 / fps` is unguarded
and raises `ZeroDivisionError` exactly when fps is 0. -/
theorem C7_interval_guarded (fps delta : ℚ) :
    (0 < fps → frame_interval fps * fps = 1) ∧
      (fps ≤ 0 → frame_interval fps = frame_interval 30) ∧
      0 < frame_interval fps ∧
      (fps ≠ 0 → mainFrameDelay fps delta =
        .ok (if delta < 1 / fps then some (1 / fps - delta) else none)) := by
  refine ⟨fun h => ?_, fun h => ?_, ?_, fun h => ?_⟩
  · rw [frame_interval, if_pos h, one_div, inv_mul_cancel₀ (ne_of_gt h)]
  · rw [frame_interval, if_neg (not_lt.mpr h), frame_interval, if_pos (by norm_num)]
  · rw [frame_interval]
    split
    · exact one_div_pos.mpr (by assumption)
    · norm_num
  · rw [mainFrameDelay, if_neg h]

/-- C7 witness: at 2 fps the app interval is the reciprocal and main.py's
delay computation succeeds. -/
theorem C7_interval_guarded_witness :
    frame_interval 2 * 2 = 1 ∧
      mainFrameDelay 2 0 = .ok (if (0:ℚ) < 1 / 2 then some (1 / 2 - 0) else none) :=
  ⟨(C7_interval_guarded 2 0).1 (by norm_num),
    (C7_interval_guarded 2 0).2.2.2 (by norm_num)⟩

/-- C8 counterexample: a queued file that fails to open is moved into
history by the `finally` rename exactly like a successfully played file —
the resulting directory state after failing to open `bad.mp4` equals the
state after fully playing it, so no error marker distinguishes the two;
the claim's "archived under an error marker" does not hold. -/
theorem C8_no_error_marker :
    (appIteration mUnavailable dBad).1 = (appIteration mTwo dBad).1 ∧
      (appIteration mUnavailable dBad).2 = [] ∧
      (appIteration mUnavailable dBad).1.history = ["bad.mp4"] := by
  decide

/-- C8 as amended: a queued file whose path fails to open yields no frames
(`frame_stream` returns before its first yield), is moved into history by
the `finally` rename like any completed file (with no error marker), and
is therefore never requeued: it cannot block the queue. -/
theorem C8_unopenable_archived (m : Media) (d : StreamDirs) (v : String) (tail : List String)
    (hq : get_video_queue d.videos d.history = v :: tail)
    (hopen : m.opens (videoPath v) = false) :
    (appIteration m d).2 = [] ∧
      v ∈ (appIteration m d).1.history ∧
      v ∉ get_video_queue (appIteration m d).1.videos (appIteration m d).1.history := by
  have hv := mem_get_video_queue.mp (hq ▸ List.mem_cons_self v tail)
  simp only [appIteration, hq, archiveApp_of_mem hv.1]
  refine ⟨by simp [frame_stream, hopen], mem_dirInsert_self d.history v, fun hcon => ?_⟩
  exact absurd (mem_dirInsert_self d.history v) (mem_get_video_queue.mp hcon).2.2

/-- C8 witness: the unopenable `bad.mp4` at a concrete stream is archived
and leaves the queue. -/
theorem C8_unopenable_archived_witness :
    "bad.mp4" ∈ (appIteration mUnavailable dBad).1.history ∧
      "bad.mp4" ∉
        get_video_queue (appIteration mUnavailable dBad).1.videos
          (appIteration mUnavailable dBad).1.history :=
  ⟨(C8_unopenable_archived mUnavailable dBad "bad.mp4" [] (by decide) (by decide)).2.1,
    (C8_unopenable_archived mUnavailable dBad "bad.mp4" [] (by decide) (by decide)).2.2⟩

lemma appOfflineLoop_trace (interval : ℚ) (hasNew ret : Nat → Bool) :
    ∀ (k fuel t : Nat), (∀ j, j < k → hasNew (t + j) = false) → hasNew (t + k) = true →
      k < fuel →
      countFrames (appOfflineLoop interval hasNew ret fuel t) = readsBefore ret k t ∧
        countChecks (appOfflineLoop interval hasNew ret fuel t) = k + 1 ∧
        (appOfflineLoop interval hasNew ret fuel t).getLast? = some (Ev.checkedQueue true) := by
  intro k
  induction k with
  | zero =>
    intro fuel t _ hk hfuel
    cases fuel with
    | zero => omega
    | succ f =>
      rw [appOfflineLoop, if_pos (by simpa using hk)]
      refine ⟨?_, ?_, rfl⟩ <;> simp [countFrames, countChecks, readsBefore, List.countP_cons]
  | succ k ih =>
    intro fuel t hfirst hk hfuel
    cases fuel with
    | zero => omega
    | succ f =>
      have h0 : hasNew t = false := by simpa using hfirst 0 (by omega)
      have ihm := ih f (t + 1)
        (fun j hj => by
          have := hfirst (j + 1) (by omega)
          rwa [show t + (j + 1) = t + 1 + j by omega] at this)
        (by rwa [show t + 1 + k = t + (k + 1) by omega])
        (by omega)
      rw [appOfflineLoop, if_neg (by simp [h0])]
      by_cases hr : ret t
      · rw [if_pos hr]
        refine ⟨?_, ?_, ?_⟩
        · simp only [countFrames, List.countP_cons] at ihm ⊢
          simp [readsBefore, hr, ihm.1, Nat.add_comm]
        · simp only [countChecks, List.countP_cons] at ihm ⊢
          simp [ihm.2.1]
        · exact getLast?_cons_of_getLast?
            (getLast?_cons_of_getLast? (getLast?_cons_of_getLast? ihm.2.2))
      · rw [if_neg hr]
        refine ⟨?_, ?_, getLast?_cons_of_getLast? ihm.2.2⟩
        · simp only [countFrames, List.countP_cons] at ihm ⊢
          simp [readsBefore, hr, ihm.1]
        · simp only [countChecks, List.countP_cons] at ihm ⊢
          simp [ihm.2.1]

/-- C3 counterexample: main.py's offline pass (lines 86-107) contains no
`get_video_queue` call at all: a 5-frame pass delivers all 5 offline
frames with zero pending-queue re-checks, so a file that becomes pending
during the pass cannot preempt it — the pass always completes before the
queue is read again. -/
theorem C3_main_no_recheck :
    countFrames (mainOfflinePass (fun t => decide (t < 5)) 100 0) = 5 ∧
      countChecks (mainOfflinePass (fun t => decide (t < 5)) 100 0) = 0 := by
  decide

/-- C3 as amended: in app.py's offline loop the pending queue is re-run
before every read, and the first non-empty result (at loop pass `k`)
aborts the loop at that frame boundary: the frames delivered are exactly
the successful reads strictly before pass `k`, the queue was checked
`k + 1` times, and the trace ends with the non-empty check — no offline
frame follows it. In main.py the offline pass never re-checks the queue
and always completes. -/
theorem C3_offline_preemption (interval : ℚ) (hasNew ret : Nat → Bool) (k fuel : Nat)
    (hfirst : ∀ j, j < k → hasNew j = false) (hk : hasNew k = true) (hfuel : k < fuel) :
    countFrames (appOfflineLoop interval hasNew ret fuel 0) = (List.range k).countP ret ∧
      countChecks (appOfflineLoop interval hasNew ret fuel 0) = k + 1 ∧
      (appOfflineLoop interval hasNew ret fuel 0).getLast? = some (Ev.checkedQueue true) := by
  have h := appOfflineLoop_trace interval hasNew ret k fuel 0
    (fun j hj => by simpa using hfirst j hj) (by simpa using hk) hfuel
  rw [readsBefore_eq_countP] at h
  have hcong : (List.range k).countP (fun j => ret (0 + j)) = (List.range k).countP ret :=
    List.countP_congr (fun a _ => by rw [Nat.zero_add])
  rwa [hcong] at h

/-- C3 witness: the queue becomes non-empty at offline-loop pass 2 (with
every read succeeding); the loop delivers exactly 2 frames, checks the
queue 3 times, and ends on the non-empty check. -/
theorem C3_offline_preemption_witness :
    countFrames
        (appOfflineLoop (frame_interval 30) (fun t => decide (2 ≤ t)) (fun _ => true) 10 0) =
      (List.range 2).countP (fun _ => true) ∧
      countChecks
          (appOfflineLoop (frame_interval 30) (fun t => decide (2 ≤ t)) (fun _ => true) 10 0) =
        2 + 1 ∧
      (appOfflineLoop (frame_interval 30) (fun t => decide (2 ≤ t)) (fun _ => true)
            10 0).getLast? =
        some (Ev.checkedQueue true) :=
  C3_offline_preemption (frame_interval 30) (fun t => decide (2 ≤ t)) (fun _ => true) 2 10
    (fun j hj => decide_eq_false (by omega)) (by decide) (by omega)
